import Mathlib

/-
  Verification development for the quiz content-management service layer
  (categories, quizzes, questions).  The service operations of
  `quiz/services/category.py`, `quiz/services/quiz_s.py` and
  `quiz/services/question.py`, together with the model-level validation of
  `quiz/models.py` (`Question.clean`, called from `Question.save`), are
  shallowly embedded as pure functions over an explicit `Store` state.

  Python exceptions are modelled as an explicit error type `Err`:
  `Err.validationError` stands for Django's `ValidationError` (the only
  exception class the services distinguish - several handlers re-raise it
  unchanged), `Err.exception` stands for a plain `Exception` carrying a
  message, and `Err.typeError` for a `TypeError` raised by the Python
  runtime.  A service call that may mutate the store is embedded as
  `Store -> ... -> (Except Err result) × Store`; Python raise-paths return
  the store unchanged, which is faithful to the source because every
  mutation is performed after all validations, inside `transaction.atomic()`.

  `random.randint(0, count - 1)` is modelled by passing the drawn index as
  an explicit argument `randomIndex`.
-/

namespace QuizApp

/-- Payload of a Django `ValidationError`: either a plain message,
    or a message attached to a field (the `ValidationError({'field': msg})`
    form used by `Question.clean`). -/
inductive VEPayload where
  | msg (m : String)
  | field (f : String) (m : String)
deriving DecidableEq, Repr

/-- Errors raised by the embedded service layer. -/
inductive Err where
  | validationError (p : VEPayload)
  | exception (m : String)
  | typeError (m : String)
deriving DecidableEq, Repr

deriving instance DecidableEq for Except

/-- Discriminator: is this result a raised `ValidationError`? -/
def isValidationError {α : Type} : Except Err α → Bool
  | Except.error (Err.validationError _) => true
  | _ => false

/-- Single-quote character as a string (used to render Python `str()` of a
    `ValidationError`, which wraps the message as `['msg']`). -/
def sq : String := String.singleton (Char.ofNat 39)

/-- Python `str()` of a single-message `ValidationError`: `['msg']`. -/
def veStr (m : String) : String := "[" ++ sq ++ m ++ sq ++ "]"

/-- Modelled from the spec: `quiz/constants.py` is absent from `src/`
    (only importers are present).  Spec §3: Category `title` max 100
    characters. -/
def CATEGORY_TITLE_LENGTH : Nat := 100

/-- Modelled from the spec: `quiz/constants.py` is absent from `src/`.
    Spec §3: Question/Quiz `description` max 500 characters. -/
def DESCRIPTION_LENGTH : Nat := 500

/-- Modelled from the spec: `quiz/constants.py` is absent from `src/`.
    Spec §3: Question `text` max 500 characters. -/
def TEXT_LENGTH : Nat := 500

/-- Modelled from the spec: `quiz/constants.py` is absent from `src/`.
    Spec §3: Question `explanation` max 250 characters. -/
def EXPLANATION_LENGTH : Nat := 250

/-- Modelled from the spec: `quiz/constants.py` is absent from `src/`.
    Spec §3: `options` length >= 2 (`минимум 2 варианта` in the model help
    text; the error message rendered by the tests says `не менее 2`). -/
def OPTIONS_COUNT : Nat := 2

/-- Embeds `[d[0] for d in Difficulty.choices]` from `quiz/models.py`
    (`Difficulty.EASY/MEDIUM/HARD` = easy/medium/hard). -/
def difficultyChoices : List String := ["easy", "medium", "hard"]

/-- Python repr of `[d[0] for d in Difficulty.choices]`, as interpolated
    into the difficulty `ValidationError` message. -/
def difficultyChoicesRepr : String :=
  "[" ++ sq ++ "easy" ++ sq ++ ", " ++ sq ++ "medium" ++ sq ++ ", "
      ++ sq ++ "hard" ++ sq ++ "]"

/-- Row of the `Category` table (`quiz/models.py`). -/
structure Category where
  id : Nat
  title : String
deriving DecidableEq, Repr

/-- Row of the `Quiz` table (`quiz/models.py`); `description` is nullable. -/
structure Quiz where
  id : Nat
  title : String
  description : Option String
deriving DecidableEq, Repr

/-- Row of the `Question` table (`quiz/models.py`).  The two foreign keys
    are stored as ids; `difficulty` is the stored string of the
    `Difficulty` enumeration. -/
structure Question where
  id : Nat
  quizId : Nat
  categoryId : Nat
  text : String
  description : Option String
  options : List String
  correctAnswer : String
  explanation : Option String
  difficulty : String
deriving DecidableEq, Repr

/-- The relational store the services act on, with auto-increment counters
    for the surrogate primary keys assigned on insert. -/
structure Store where
  categories : List Category
  quizzes : List Quiz
  questions : List Question
  nextCategoryId : Nat
  nextQuestionId : Nat
deriving DecidableEq, Repr

/-- Embeds `Category.objects.get(id=...)` as an optional lookup. -/
def findCategory (s : Store) (categoryId : Nat) : Option Category :=
  s.categories.find? (fun c => c.id == categoryId)

/-- Embeds `Quiz.objects.get(id=...)` as an optional lookup. -/
def findQuiz (s : Store) (quizId : Nat) : Option Quiz :=
  s.quizzes.find? (fun q => q.id == quizId)

/-- Embeds `Question.objects.get(id=...)` as an optional lookup. -/
def findQuestion (s : Store) (questionId : Nat) : Option Question :=
  s.questions.find? (fun q => q.id == questionId)

/-- Python truthiness of an optional string (`None` and `''` are falsy). -/
def truthyStr : Option String → Bool
  | none => false
  | some s => !(s == "")

/-- Python truthiness of an optional list (`None` and `[]` are falsy). -/
def truthyList : Option (List String) → Bool
  | none => false
  | some l => !(l == [])

/-- Python truthiness of an optional integer (`None` and `0` are falsy). -/
def truthyNat : Option Nat → Bool
  | none => false
  | some n => !(n == 0)

/-- Characters Python's `str.strip()` removes (ASCII whitespace; the
    Unicode space characters Python also strips play no role here). -/
def pyIsSpace (c : Char) : Bool :=
  c == ' ' || c == '\t' || c == '\n' || c == '\x0b' || c == '\x0c' || c == '\r'

/-- Python `str.strip()`: drop leading and trailing whitespace. -/
def pyStrip (s : String) : String :=
  String.mk (((s.data.dropWhile pyIsSpace).reverse.dropWhile pyIsSpace).reverse)

/-- Python `str.lower()`, character by character (`Char.toLower` lowers
    the ASCII range; non-ASCII letters pass through unchanged). -/
def pyLower (s : String) : String :=
  String.mk (s.data.map Char.toLower)

/-- Is `n` a prefix of the second list (by `==`)? -/
def prefChars : List Char → List Char → Bool
  | [], _ => true
  | _ :: _, [] => false
  | a :: as, b :: bs => a == b && prefChars as bs

/-- Is `n` a contiguous sublist of the second list? -/
def subChars (n : List Char) : List Char → Bool
  | [] => n.isEmpty
  | c :: t => prefChars n (c :: t) || subChars n t

/-- Django `icontains`: case-insensitive substring match of `needle`
    against the field value `hay`. -/
def icontains (hay needle : String) : Bool :=
  subChars (pyLower needle).toList (pyLower hay).toList

/-- Django `field__icontains` applied to a nullable column: a SQL NULL
    never matches. -/
def icontainsOpt (hay : Option String) (needle : String) : Bool :=
  match hay with
  | some h => icontains h needle
  | none => false

/-- Embeds `order_by('id')` on a question queryset (also the `Question.Meta`
    default ordering). -/
def sortQuestionsById (l : List Question) : List Question :=
  List.insertionSort (fun a b => a.id ≤ b.id) l

/-- Embeds `order_by('id')` on a quiz queryset. -/
def sortQuizzesById (l : List Quiz) : List Quiz :=
  List.insertionSort (fun a b => a.id ≤ b.id) l

/-- Embeds `order_by('title')` on a quiz queryset. -/
def sortQuizzesByTitle (l : List Quiz) : List Quiz :=
  List.insertionSort (fun a b => a.title ≤ b.title) l

/-- Embeds `Question.clean` (`quiz/models.py` lines 121-133): model-level
    validation run on every `save`.  The `isinstance(self.options, list)`
    check cannot fail in the embedding, where `options` is a list by type. -/
def Question.clean (q : Question) : Except Err Unit :=
  if q.options.length < OPTIONS_COUNT then
    Except.error (Err.validationError (VEPayload.field "options"
      ("Должно быть не менее " ++ toString OPTIONS_COUNT ++ " вариантов ответа")))
  else if !(q.options.contains q.correctAnswer) then
    Except.error (Err.validationError (VEPayload.field "correct_answer"
      "Правильный ответ должен быть одним из вариантов в options"))
  else
    Except.ok ()

/-- Embeds `QuizService.list_quizzes` (`quiz/services/quiz_s.py` lines 13-19):
    `Quiz.objects.all().order_by('id')`. -/
def list_quizzes (s : Store) : List Quiz :=
  sortQuizzesById s.quizzes

/-- Embeds `QuizService.get_quizes_by_title` (`quiz/services/quiz_s.py` lines
    36-52): blank input short-circuits to `[]`; otherwise
    `filter(title__icontains=title.strip()).order_by('title')`. -/
def get_quizes_by_title (s : Store) (title : String) : List Quiz :=
  if title == "" || (pyStrip title).length == 0 then []
  else
    sortQuizzesByTitle (s.quizzes.filter (fun q => icontains q.title (pyStrip title)))

/-- Embeds `QuestionService.get_questions_by_text` (`quiz/services/question.py`
    lines 45-62): blank input short-circuits to `[]`; otherwise
    `filter(Q(text__icontains=...) | Q(description__icontains=...))
    .order_by('id')`. -/
def get_questions_by_text (s : Store) (text : String) : List Question :=
  if text == "" || (pyStrip text).length == 0 then []
  else
    sortQuestionsById (s.questions.filter
      (fun q => icontains q.text (pyStrip text) || icontainsOpt q.description (pyStrip text)))

/-- Embeds `QuestionService.check_answer` (`quiz/services/question.py` lines
    236-249).  The source only reads; the returned store is the input
    store.  A missing question raises in `get_question` and is re-wrapped
    by the blanket `except Exception`. -/
def check_answer (s : Store) (questionId : Nat) (answer : String) :
    (Except Err Bool) × Store :=
  match findQuestion s questionId with
  | none =>
      (Except.error (Err.exception
        ("Ошибка при проверке ответа: Вопрос с id=" ++ toString questionId ++ " не найден")), s)
  | some q =>
      (Except.ok (pyLower (pyStrip q.correctAnswer) == pyLower (pyStrip answer)), s)

/-- Embeds `CategoryService.create_category` (`quiz/services/category.py` lines
    46-73).  Title validations raise `ValidationError` outside the `try`;
    the duplicate-title `ValidationError` raised after `get_or_create` is
    caught by the blanket `except Exception` and re-raised as a plain
    `Exception` wrapping `str(e)` (which renders as `['...']`).  The
    message interpolates the original, untrimmed title. -/
def create_category (s : Store) (title : String) :
    (Except Err Category) × Store :=
  if title == "" || (pyStrip title).length == 0 then
    (Except.error (Err.validationError (VEPayload.msg
      "Название категории не может быть пустым")), s)
  else if CATEGORY_TITLE_LENGTH < title.length then
    (Except.error (Err.validationError (VEPayload.msg
      ("Название категории не может превышать "
        ++ toString CATEGORY_TITLE_LENGTH ++ " символов"))), s)
  else
    match s.categories.find? (fun c => c.title == pyStrip title) with
    | some _ =>
        (Except.error (Err.exception
          ("Ошибка при создании категории: "
            ++ veStr ("Категория с названием \"" ++ title ++ "\" уже существует"))), s)
    | none =>
        let c : Category := { id := s.nextCategoryId, title := pyStrip title }
        (Except.ok c,
          { s with categories := s.categories ++ [c],
                   nextCategoryId := s.nextCategoryId + 1 })

/-- Embeds `CategoryService.delete_category` (`quiz/services/category.py` lines
    109-124).  Both the not-found error from `get_category` and the
    linked-questions guard are re-wrapped by the blanket
    `except Exception`. -/
def delete_category (s : Store) (categoryId : Nat) :
    (Except Err Unit) × Store :=
  match findCategory s categoryId with
  | none =>
      (Except.error (Err.exception
        ("Ошибка при удалении категории: Категория с id="
          ++ toString categoryId ++ " не найдена")), s)
  | some _ =>
      if s.questions.any (fun q => q.categoryId == categoryId) then
        (Except.error (Err.exception
          "Ошибка при удалении категории: Нельзя удалить категорию, к которой привязаны вопросы"), s)
      else
        (Except.ok (),
          { s with categories := s.categories.filter (fun c => !(c.id == categoryId)) })

/-- Embeds `QuizService.delete_quiz` (`quiz/services/quiz_s.py` lines 118-134).
    Same shape as `delete_category`; the quiz not-found message uses a
    Latin `c` exactly as the source does. -/
def delete_quiz (s : Store) (quizId : Nat) : (Except Err Unit) × Store :=
  match findQuiz s quizId with
  | none =>
      (Except.error (Err.exception
        ("Ошибка при удалении квиза: Квиз c id=" ++ toString quizId ++ " не найден")), s)
  | some _ =>
      if s.questions.any (fun q => q.quizId == quizId) then
        (Except.error (Err.exception
          "Ошибка при удалении квиза: Нельзя удалить квиз, к которому привязаны вопросы"), s)
      else
        (Except.ok (),
          { s with quizzes := s.quizzes.filter (fun q => !(q.id == quizId)) })

/-- Partial-update payload for `QuizService.update_quiz`
    (`data.get('title')`, `data.get('description')`). -/
structure QuizData where
  title : Option String := none
  description : Option String := none
deriving DecidableEq, Repr

/-- Embeds `quiz.save()`: write the (single) row with this primary key back. -/
def replaceQuiz (s : Store) (q : Quiz) : Store :=
  { s with quizzes := s.quizzes.map (fun q2 => if q2.id == q.id then q else q2) }

/-- Embeds `QuizService.update_quiz` (`quiz/services/quiz_s.py` lines 83-116).
    The title branch is guarded by Python truthiness (`if title:`), the
    description branch by `is not None`; the not-found error from
    `get_quiz` is re-wrapped by the blanket `except Exception`. -/
def update_quiz (s : Store) (quizId : Nat) (data : QuizData) :
    (Except Err Quiz) × Store :=
  match findQuiz s quizId with
  | none =>
      (Except.error (Err.exception
        ("Ошибка при обновлении квиза: Квиз c id=" ++ toString quizId ++ " не найден")), s)
  | some q0 =>
      let titleStep : Except Err Quiz :=
        if truthyStr data.title then
          let t := data.title.getD ""
          if (pyStrip t).length == 0 then
            Except.error (Err.validationError (VEPayload.msg
              "Название квиза не может быть пустым"))
          else if 200 < t.length then
            Except.error (Err.validationError (VEPayload.msg
              "Название квиза не может превышать 200 символов"))
          else Except.ok { q0 with title := pyStrip t }
        else Except.ok q0
      match titleStep with
      | Except.error e => (Except.error e, s)
      | Except.ok q1 =>
          match data.description with
          | none => (Except.ok q1, replaceQuiz s q1)
          | some d =>
              if !(d == "") && 500 < d.length then
                (Except.error (Err.validationError (VEPayload.msg
                  "Описание квиза не может превышать 500 символов")), s)
              else
                let q2 : Quiz :=
                  { q1 with description := if d == "" then none else some (pyStrip d) }
                (Except.ok q2, replaceQuiz s q2)

/-- Input payload for `QuestionService.create_question` /
    `update_question`: the `data.get(...)` lookups of the source, with
    `none` for an absent (or null) key. -/
structure QuestionData where
  category_id : Option Nat := none
  text : Option String := none
  description : Option String := none
  options : Option (List String) := none
  correct_answer : Option String := none
  difficulty : Option String := none
  explanation : Option String := none
deriving DecidableEq, Repr

/-- Embeds `difficulty in [d[0] for d in Difficulty.choices]` for the optional
    value of `data.get('difficulty')`; Python `None in [...]` is `False`. -/
def optInDifficultyChoices : Option String → Bool
  | none => false
  | some d => difficultyChoices.contains d

/-- The field-validation part of `QuestionService.create_question`
    (`quiz/services/question.py` lines 100-142), run after the quiz and
    category lookups, producing the `Question` passed to
    `Question.objects.create`.  Note the source checks the text length
    against `DESCRIPTION_LENGTH` here (not `TEXT_LENGTH`), does not strip
    `correct_answer`, and evaluating `correct_answer not in options` with
    an absent `options` raises a `TypeError` that no `except` clause of
    the source catches. -/
def buildNewQuestion (newId quizId categoryId : Nat) (data : QuestionData) :
    Except Err Question :=
  if !(truthyStr data.text) || (pyStrip (data.text.getD "")).length == 0 then
    Except.error (Err.validationError (VEPayload.msg
      "Текст вопроса не может быть пустым"))
  else if DESCRIPTION_LENGTH < (data.text.getD "").length then
    Except.error (Err.validationError (VEPayload.msg
      ("Текст вопроса не может превышать " ++ toString DESCRIPTION_LENGTH ++ " символов")))
  else if truthyStr data.description
      && DESCRIPTION_LENGTH < (data.description.getD "").length then
    Except.error (Err.validationError (VEPayload.msg
      ("Описание вопроса не может превышать " ++ toString DESCRIPTION_LENGTH ++ " символов")))
  else if !(truthyStr data.correct_answer) then
    Except.error (Err.validationError (VEPayload.msg "Правильный ответ обязателен"))
  else
    match data.options with
    | none =>
        Except.error (Err.typeError
          ("argument of type " ++ sq ++ "NoneType" ++ sq ++ " is not iterable"))
    | some opts =>
        if !(opts.contains (data.correct_answer.getD "")) then
          Except.error (Err.validationError (VEPayload.msg
            "Правильный ответ должен быть одним из вариантов ответа"))
        else if !(optInDifficultyChoices data.difficulty) then
          Except.error (Err.validationError (VEPayload.msg
            ("Сложность должна быть одной из: " ++ difficultyChoicesRepr)))
        else if truthyStr data.explanation
            && EXPLANATION_LENGTH < (data.explanation.getD "").length then
          Except.error (Err.validationError (VEPayload.msg
            ("Объяснение ответа не может превышать " ++ toString EXPLANATION_LENGTH ++ " символов")))
        else
          Except.ok
            { id := newId, quizId := quizId, categoryId := categoryId,
              text := pyStrip (data.text.getD ""),
              description :=
                if truthyStr data.description
                then some (pyStrip (data.description.getD "")) else none,
              options := opts,
              correctAnswer := data.correct_answer.getD "",
              explanation :=
                if truthyStr data.explanation
                then some (pyStrip (data.explanation.getD "")) else none,
              difficulty := data.difficulty.getD "" }

/-- Embeds `QuestionService.create_question` (`quiz/services/question.py` lines
    83-148).  `Quiz.objects.get` / `Category.objects.get` failures are
    caught as `ObjectDoesNotExist` and re-raised as plain exceptions;
    `if not category` (category falsy or absent) raises the
    category-required `ValidationError`; `Question.objects.create` runs
    `Question.clean` via `save`, whose `ValidationError` is re-raised
    unchanged.  Mutation happens only after every check, inside
    `transaction.atomic()`. -/
def create_question (s : Store) (quizId : Nat) (data : QuestionData) :
    (Except Err Question) × Store :=
  match findQuiz s quizId with
  | none =>
      (Except.error (Err.exception
        "Не найдены необходимые объекты: Quiz matching query does not exist."), s)
  | some _ =>
      if truthyNat data.category_id then
        match findCategory s (data.category_id.getD 0) with
        | none =>
            (Except.error (Err.exception
              "Не найдены необходимые объекты: Category matching query does not exist."), s)
        | some category =>
            match buildNewQuestion s.nextQuestionId quizId category.id data with
            | Except.error e => (Except.error e, s)
            | Except.ok newQ =>
                match Question.clean newQ with
                | Except.error e => (Except.error e, s)
                | Except.ok _ =>
                    (Except.ok newQ,
                      { s with questions := s.questions ++ [newQ],
                               nextQuestionId := s.nextQuestionId + 1 })
      else
        (Except.error (Err.validationError (VEPayload.msg
          "Категория обязательна для вопроса")), s)

/-- Embeds `update_question`, text branch (`if text:` guard; the inner
    `not text` test of the source is unreachable under the guard). -/
def updText (data : QuestionData) (q : Question) : Except Err Question :=
  if truthyStr data.text then
    let t := data.text.getD ""
    if (pyStrip t).length == 0 then
      Except.error (Err.validationError (VEPayload.msg
        "Текст вопроса не может быть пустым"))
    else if TEXT_LENGTH < t.length then
      Except.error (Err.validationError (VEPayload.msg
        ("Текст вопроса не может превышать " ++ toString TEXT_LENGTH ++ " символов")))
    else Except.ok { q with text := pyStrip t }
  else Except.ok q

/-- Embeds `update_question`, description branch (`is not None` guard; an empty
    string clears the field). -/
def updDescription (data : QuestionData) (q : Question) : Except Err Question :=
  match data.description with
  | none => Except.ok q
  | some d =>
      if !(d == "") && DESCRIPTION_LENGTH < d.length then
        Except.error (Err.validationError (VEPayload.msg
          ("Описание вопроса не может превышать " ++ toString DESCRIPTION_LENGTH ++ " символов")))
      else Except.ok { q with description := if d == "" then none else some (pyStrip d) }

/-- Embeds `update_question`, options branch (`if options:` guard; the
    `isinstance` half of the check cannot fail in the embedding). -/
def updOptions (data : QuestionData) (q : Question) : Except Err Question :=
  if truthyList data.options then
    let opts := data.options.getD []
    if opts.length < OPTIONS_COUNT then
      Except.error (Err.validationError (VEPayload.msg
        ("Должно быть не менее " ++ toString OPTIONS_COUNT ++ " вариантов ответа в виде списка")))
    else Except.ok { q with options := opts }
  else Except.ok q

/-- Embeds `update_question`, correct-answer branch: membership is checked
    against `options if options else question.options` — the supplied
    options when truthy, else the question's current options. -/
def updCorrectAnswer (data : QuestionData) (q : Question) : Except Err Question :=
  if truthyStr data.correct_answer then
    let ca := data.correct_answer.getD ""
    let current_options :=
      if truthyList data.options then data.options.getD [] else q.options
    if !(current_options.contains ca) then
      Except.error (Err.validationError (VEPayload.msg
        "Правильный ответ должен быть одним из вариантов ответа"))
    else Except.ok { q with correctAnswer := ca }
  else Except.ok q

/-- Embeds `update_question`, difficulty branch (`if difficulty:` guard). -/
def updDifficulty (data : QuestionData) (q : Question) : Except Err Question :=
  if truthyStr data.difficulty then
    let d := data.difficulty.getD ""
    if !(difficultyChoices.contains d) then
      Except.error (Err.validationError (VEPayload.msg
        ("Сложность должна быть одной из: " ++ difficultyChoicesRepr)))
    else Except.ok { q with difficulty := d }
  else Except.ok q

/-- Embeds `update_question`, explanation branch (`is not None` guard; an empty
    string clears the field). -/
def updExplanation (data : QuestionData) (q : Question) : Except Err Question :=
  match data.explanation with
  | none => Except.ok q
  | some e =>
      if !(e == "") && EXPLANATION_LENGTH < e.length then
        Except.error (Err.validationError (VEPayload.msg
          ("Объяснение ответа не может превышать " ++ toString EXPLANATION_LENGTH ++ " символов")))
      else Except.ok { q with explanation := if e == "" then none else some (pyStrip e) }

/-- The field branches of `update_question`
    (`quiz/services/question.py` lines 167-209), in source order. -/
def applyQuestionUpdates (data : QuestionData) (q : Question) :
    Except Err Question :=
  match updText data q with
  | Except.error e => Except.error e
  | Except.ok q1 =>
      match updDescription data q1 with
      | Except.error e => Except.error e
      | Except.ok q2 =>
          match updOptions data q2 with
          | Except.error e => Except.error e
          | Except.ok q3 =>
              match updCorrectAnswer data q3 with
              | Except.error e => Except.error e
              | Except.ok q4 =>
                  match updDifficulty data q4 with
                  | Except.error e => Except.error e
                  | Except.ok q5 => updExplanation data q5

/-- Embeds `question.save()`: write the row with this primary key back. -/
def replaceQuestion (s : Store) (q : Question) : Store :=
  { s with questions := s.questions.map (fun q2 => if q2.id == q.id then q else q2) }

/-- Embeds `update_question`, category branch (`if category_id:` guard; a
    missing category raises `ObjectDoesNotExist`, re-raised by the
    source as a plain exception). -/
def updCategory (s : Store) (data : QuestionData) (q : Question) :
    Except Err Question :=
  if truthyNat data.category_id then
    match findCategory s (data.category_id.getD 0) with
    | none =>
        Except.error (Err.exception
          "Категория не найдена: Category matching query does not exist.")
    | some c => Except.ok { q with categoryId := c.id }
  else Except.ok q

/-- Embeds `QuestionService.update_question` (`quiz/services/question.py` lines
    150-219).  The not-found error from `get_question` is re-wrapped by
    the blanket `except Exception`; `save` runs `Question.clean`, whose
    `ValidationError` is re-raised unchanged.  Nothing is persisted on
    any raise-path. -/
def update_question (s : Store) (questionId : Nat) (data : QuestionData) :
    (Except Err Question) × Store :=
  match findQuestion s questionId with
  | none =>
      (Except.error (Err.exception
        ("Ошибка при обновлении вопроса: Вопрос с id=" ++ toString questionId ++ " не найден")), s)
  | some q0 =>
      match updCategory s data q0 with
      | Except.error e => (Except.error e, s)
      | Except.ok q1 =>
          match applyQuestionUpdates data q1 with
          | Except.error e => (Except.error e, s)
          | Except.ok q2 =>
              match Question.clean q2 with
              | Except.error e => (Except.error e, s)
              | Except.ok _ => (Except.ok q2, replaceQuestion s q2)

/-- Embeds `Question.objects.filter(quiz_id=quiz_id)` with the `Question.Meta`
    default ordering by id: the queryset indexed by the random index. -/
def quizQuestionsSorted (s : Store) (quizId : Nat) : List Question :=
  sortQuestionsById (s.questions.filter (fun q => q.quizId == quizId))

/-- Embeds `QuestionService.random_question_from_quiz`
    (`quiz/services/question.py` lines 251-274).  The drawn value of
    `random.randint(0, count - 1)` is the explicit `randomIndex`
    argument.  The quiz lookup failure is raised inside the
    `ObjectDoesNotExist` handler (not re-wrapped); the empty-quiz error
    is raised inside the `try` and re-wrapped by `except Exception`; the
    queryset is ordered by id (`Question.Meta.ordering`).  An
    out-of-range index would raise an `IndexError`, re-wrapped by the
    same handler. -/
def random_question_from_quiz (s : Store) (quizId : Nat) (randomIndex : Nat) :
    Except Err Question :=
  match findQuiz s quizId with
  | none =>
      Except.error (Err.exception
        ("Квиз c id=" ++ toString quizId ++ " не найден"))
  | some _ =>
      let questions := quizQuestionsSorted s quizId
      if questions.isEmpty then
        Except.error (Err.exception
          ("Ошибка при получении случайного вопроса: B квизе c id="
            ++ toString quizId ++ " нет вопросов"))
      else
        match questions[randomIndex]? with
        | some q => Except.ok q
        | none =>
            Except.error (Err.exception
              "Ошибка при получении случайного вопроса: list index out of range")

/-- Replace the fields of a question-update payload that are guarded by
    Python truthiness (`text`, `options`, `correct_answer`,
    `difficulty`) by `none` whenever their supplied value is falsy.
    Used to state that `update_question` treats falsy supplied values
    exactly like omitted fields. -/
def defalsify (d : QuestionData) : QuestionData :=
  { d with
    text := if truthyStr d.text then d.text else none,
    options := if truthyList d.options then d.options else none,
    correct_answer := if truthyStr d.correct_answer then d.correct_answer else none,
    difficulty := if truthyStr d.difficulty then d.difficulty else none }

/-
  Shared helper lemmas.
-/

/-- A non-empty string has non-zero length. -/
theorem strLength_beq_zero_eq_false (s : String) (h : s ≠ "") :
    (s.length == 0) = false := by
  rw [beq_eq_false_iff_ne]
  intro h0
  apply h
  cases s with
  | mk data =>
      cases data with
      | nil => rfl
      | cons c cs => simp [String.length] at h0

/-- Instances letting Mathlib's insertion-sort lemmas apply to the
    order-by-id relation on quizzes. -/
instance : IsTotal Quiz (fun a b => a.id ≤ b.id) :=
  ⟨fun a b => Nat.le_total a.id b.id⟩

instance : IsTrans Quiz (fun a b => a.id ≤ b.id) :=
  ⟨fun _ _ _ h1 h2 => Nat.le_trans h1 h2⟩

instance : IsTotal Question (fun a b => a.id ≤ b.id) :=
  ⟨fun a b => Nat.le_total a.id b.id⟩

instance : IsTrans Question (fun a b => a.id ≤ b.id) :=
  ⟨fun _ _ _ h1 h2 => Nat.le_trans h1 h2⟩

/-- Embeds `Question.clean` succeeds only when the central invariant holds. -/
theorem clean_ok_inv {q : Question} (h : Question.clean q = Except.ok ()) :
    q.correctAnswer ∈ q.options ∧ 2 ≤ q.options.length := by
  unfold Question.clean at h
  split at h
  · simp at h
  · split at h
    · simp at h
    · rename_i hlen hmem
      refine ⟨?_, ?_⟩
      · have : q.options.contains q.correctAnswer = true := by
          cases hc : q.options.contains q.correctAnswer
          · rw [hc] at hmem; simp at hmem
          · rfl
        exact List.mem_of_elem_eq_true this
      · exact Nat.not_lt.mp hlen

/-
  C5.  The claim says `list_quizzes` returns all quizzes ordered by
  title; the source does `.order_by('id')`.
-/

/-- Store refuting C5: two quizzes whose id order disagrees with their
    title order. -/
def storeC5 : Store :=
  { categories := [], quizzes := [⟨1, "B", none⟩, ⟨2, "A", none⟩],
    questions := [], nextCategoryId := 1, nextQuestionId := 1 }

/-- C5 counterexample: on `storeC5`, `list_quizzes` yields titles
    `["B", "A"]`, which is not ordered by title (a title-ordered sequence
    would put `"A"` first): the list operation does not order by title. -/
theorem C5_counterexample :
    (list_quizzes storeC5).map Quiz.title = ["B", "A"] ∧
      ¬ List.Sorted (fun a b : Quiz => a.title ≤ b.title) (list_quizzes storeC5) := by
  refine ⟨rfl, ?_⟩
  intro hs
  rw [show list_quizzes storeC5 = [⟨1, "B", none⟩, ⟨2, "A", none⟩] from rfl] at hs
  simp only [List.sorted_cons, List.mem_singleton, forall_eq, List.sorted_singleton,
    and_true] at hs
  rw [String.le_iff_toList_le] at hs
  exact absurd hs (by decide)

/-- C5 (amended): `list_quizzes` returns all quizzes of the store,
    ordered by ascending id (the source does
    `Quiz.objects.all().order_by('id')`). -/
theorem C5_list_quizzes_ordered_by_id (s : Store) :
    (list_quizzes s).Perm s.quizzes ∧
      List.Sorted (fun a b : Quiz => a.id ≤ b.id) (list_quizzes s) :=
  ⟨List.perm_insertionSort _ _, List.sorted_insertionSort _ _⟩

/-
  C9.  `check_answer` semantics.
-/

/-- C9: for an existing question, `check_answer` returns `true` exactly
    when the trimmed, lower-cased answer equals the trimmed, lower-cased
    stored correct answer, and returns the store unmodified (pure read);
    for a missing id it fails with the not-found error (wrapped by the
    blanket handler of the source). -/
theorem C9_check_answer (s : Store) (questionId : Nat) (answer : String) :
    (∀ q, findQuestion s questionId = some q →
        check_answer s questionId answer
          = (Except.ok (pyLower (pyStrip q.correctAnswer) == pyLower (pyStrip answer)), s) ∧
        ((pyLower (pyStrip q.correctAnswer) == pyLower (pyStrip answer)) = true
          ↔ pyLower (pyStrip answer) = pyLower (pyStrip q.correctAnswer))) ∧
    (findQuestion s questionId = none →
        check_answer s questionId answer
          = (Except.error (Err.exception
              ("Ошибка при проверке ответа: Вопрос с id="
                ++ toString questionId ++ " не найден")), s)) := by
  constructor
  · intro q hq
    constructor
    · simp [check_answer, hq]
    · rw [beq_iff_eq]
      exact eq_comm
  · intro hq
    simp [check_answer, hq]

/-- Concrete store exercising the service operations in witnesses. -/
def storeA : Store :=
  { categories := [⟨1, "Science"⟩],
    quizzes := [⟨1, "Python Quiz", none⟩, ⟨2, "Advanced Python", some "d"⟩],
    questions := [⟨1, 1, 1, "Q1", none, ["A", "B"], "A", none, "easy"⟩,
                  ⟨2, 1, 1, "Q2", some "desc", ["C", "D"], "C", none, "medium"⟩],
    nextCategoryId := 2, nextQuestionId := 3 }

/-- C9 witness: on `storeA`, checking answer `" a "` against stored
    correct answer `"A"` returns `true` and leaves the store unchanged. -/
theorem C9_check_answer_witness :
    check_answer storeA 1 " a " = (Except.ok true, storeA) := by
  have h :=
    ((C9_check_answer storeA 1 " a ").1
      ⟨1, 1, 1, "Q1", none, ["A", "B"], "A", none, "easy"⟩ rfl).1
  rw [h]
  rfl

/-
  C8.  Search semantics of the two text searches.
-/

/-- C8: a blank input (empty or whitespace-only) makes both searches
    return the empty sequence whatever the store holds; a non-blank input
    returns exactly the case-insensitive substring matches — on quiz
    title for the quiz search, on question text OR description for the
    question search, which is ordered by id. -/
theorem C8_search_semantics (s : Store) (t : String) :
    (pyStrip t = "" →
        get_quizes_by_title s t = [] ∧ get_questions_by_text s t = []) ∧
    (pyStrip t ≠ "" →
        (get_quizes_by_title s t).Perm
            (s.quizzes.filter (fun q => icontains q.title (pyStrip t))) ∧
        (get_questions_by_text s t).Perm
            (s.questions.filter (fun q =>
              icontains q.text (pyStrip t) || icontainsOpt q.description (pyStrip t))) ∧
        List.Sorted (fun a b : Question => a.id ≤ b.id) (get_questions_by_text s t)) := by
  constructor
  · intro h
    constructor
    · simp [get_quizes_by_title, h]
    · simp [get_questions_by_text, h]
  · intro h
    have hne : (t == "") = false := by
      rw [beq_eq_false_iff_ne]
      intro h0
      exact h (by rw [h0]; rfl)
    have hlen : ((pyStrip t).length == 0) = false := strLength_beq_zero_eq_false _ h
    refine ⟨?_, ?_, ?_⟩
    · simp only [get_quizes_by_title, hne, hlen, Bool.or_self, Bool.false_eq_true,
        if_false, sortQuizzesByTitle]
      exact List.perm_insertionSort _ _
    · simp only [get_questions_by_text, hne, hlen, Bool.or_self, Bool.false_eq_true,
        if_false, sortQuestionsById]
      exact List.perm_insertionSort _ _
    · simp only [get_questions_by_text, hne, hlen, Bool.or_self, Bool.false_eq_true,
        if_false, sortQuestionsById]
      exact List.sorted_insertionSort _ _

/-- C8 witness: on `storeA`, a whitespace-only query returns `[]` from
    both searches, and the non-blank query `"python"` returns exactly the
    quizzes whose title contains it case-insensitively. -/
theorem C8_search_witness :
    (get_quizes_by_title storeA " " = [] ∧ get_questions_by_text storeA " " = []) ∧
    (get_quizes_by_title storeA "python").Perm
        (storeA.quizzes.filter (fun q => icontains q.title (pyStrip "python"))) := by
  constructor
  · exact (C8_search_semantics storeA " ").1 rfl
  · exact ((C8_search_semantics storeA "python").2 (by decide)).1

/-
  C2.  Deletion guards for Category and Quiz.
-/

/-- C2: for an existing Category (resp. Quiz), deletion with at least one
    referencing Question fails with the deletion-guard conflict error
    (the plain exception the source raises, re-wrapped by its blanket
    handler) and leaves the whole store untouched; with no referencing
    Question the delete succeeds, the record is gone, and the other
    tables are unchanged. -/
theorem C2_delete_guards (s : Store) :
    (∀ categoryId c, findCategory s categoryId = some c →
        ((s.questions.any (fun q => q.categoryId == categoryId)) = true →
            delete_category s categoryId
              = (Except.error (Err.exception
                  "Ошибка при удалении категории: Нельзя удалить категорию, к которой привязаны вопросы"), s)) ∧
        ((s.questions.any (fun q => q.categoryId == categoryId)) = false →
            (delete_category s categoryId).1 = Except.ok () ∧
            findCategory (delete_category s categoryId).2 categoryId = none ∧
            (delete_category s categoryId).2.questions = s.questions ∧
            (delete_category s categoryId).2.quizzes = s.quizzes)) ∧
    (∀ quizId qz, findQuiz s quizId = some qz →
        ((s.questions.any (fun q => q.quizId == quizId)) = true →
            delete_quiz s quizId
              = (Except.error (Err.exception
                  "Ошибка при удалении квиза: Нельзя удалить квиз, к которому привязаны вопросы"), s)) ∧
        ((s.questions.any (fun q => q.quizId == quizId)) = false →
            (delete_quiz s quizId).1 = Except.ok () ∧
            findQuiz (delete_quiz s quizId).2 quizId = none ∧
            (delete_quiz s quizId).2.questions = s.questions ∧
            (delete_quiz s quizId).2.categories = s.categories)) := by
  constructor
  · intro categoryId c hc
    constructor
    · intro hany
      simp only [delete_category, hc, hany, if_true]
    · intro hany
      simp only [delete_category, hc, hany, Bool.false_eq_true, if_false]
      refine ⟨by trivial, ?_, by trivial, by trivial⟩
      simp only [findCategory]
      rw [List.find?_eq_none]
      intro x hx
      have h2 := (List.mem_filter.mp hx).2
      simp only [Bool.not_eq_eq_eq_not, Bool.not_true] at h2
      simp [h2]
  · intro quizId qz hq
    constructor
    · intro hany
      simp only [delete_quiz, hq, hany, if_true]
    · intro hany
      simp only [delete_quiz, hq, hany, Bool.false_eq_true, if_false]
      refine ⟨by trivial, ?_, by trivial, by trivial⟩
      simp only [findQuiz]
      rw [List.find?_eq_none]
      intro x hx
      have h2 := (List.mem_filter.mp hx).2
      simp only [Bool.not_eq_eq_eq_not, Bool.not_true] at h2
      simp [h2]

/-- C2 witness: on `storeA` (whose questions reference category 1 and
    quiz 1), deleting category 1 fails with the conflict error and
    changes nothing, while deleting the unreferenced quiz 2 succeeds and
    removes it. -/
theorem C2_delete_guards_witness :
    delete_category storeA 1
      = (Except.error (Err.exception
          "Ошибка при удалении категории: Нельзя удалить категорию, к которой привязаны вопросы"), storeA) ∧
    (delete_quiz storeA 2).1 = Except.ok () ∧
    findQuiz (delete_quiz storeA 2).2 2 = none := by
  refine ⟨?_, ?_, ?_⟩
  · exact ((C2_delete_guards storeA).1 1 ⟨1, "Science"⟩ rfl).1 rfl
  · exact (((C2_delete_guards storeA).2 2 ⟨2, "Advanced Python", some "d"⟩ rfl).2 rfl).1
  · exact (((C2_delete_guards storeA).2 2 ⟨2, "Advanced Python", some "d"⟩ rfl).2 rfl).2.1

/-
  C7.  Title validation in `update_quiz`.
-/

/-- Writing back the row that `find?` returned leaves a table whose keys
    are distinct unchanged. -/
theorem map_replace_find_eq {α β : Type} [DecidableEq β] (key : α → β) :
    ∀ (l : List α) (k : β) (x0 : α),
      (l.map key).Nodup → l.find? (fun x => key x == k) = some x0 →
      l.map (fun x => if key x == key x0 then x0 else x) = l := by
  intro l
  induction l with
  | nil =>
      intro k x0 _ h
      simp at h
  | cons a t ih =>
      intro k x0 hnd hf
      rw [List.map_cons, List.nodup_cons] at hnd
      by_cases ha : (key a == k) = true
      · rw [show List.find? (fun x => key x == k) (a :: t) = some a from
          List.find?_cons_of_pos t ha] at hf
        have hax : a = x0 := by
          injection hf
        subst hax
        rw [List.map_cons, if_pos (by simp)]
        congr 1
        have : ∀ x ∈ t, (if key x == key a then a else x) = x := by
          intro x hx
          rw [if_neg]
          intro hxa
          apply hnd.1
          rw [← (beq_iff_eq.mp hxa)]
          exact List.mem_map_of_mem key hx
        rw [List.map_congr_left this]
        simp
      · rw [show List.find? (fun x => key x == k) (a :: t)
              = List.find? (fun x => key x == k) t from
          List.find?_cons_of_neg t (by simpa using ha)] at hf
        have hk : key x0 = k := by simpa using List.find?_some hf
        rw [List.map_cons, if_neg (by rw [hk]; simpa using ha)]
        congr 1
        exact ih k x0 hnd.2 hf

/-- Saving the quiz that `findQuiz` returned (unmodified) leaves a store
    with distinct quiz ids unchanged. -/
theorem replaceQuiz_of_find {s : Store} {quizId : Nat} {q0 : Quiz}
    (hnd : (s.quizzes.map Quiz.id).Nodup) (hf : findQuiz s quizId = some q0) :
    replaceQuiz s q0 = s := by
  unfold replaceQuiz
  rw [show (fun q2 : Quiz => if q2.id == q0.id then q0 else q2)
        = (fun x : Quiz => if Quiz.id x == Quiz.id q0 then q0 else x) from rfl]
  rw [map_replace_find_eq Quiz.id s.quizzes quizId q0 hnd hf]

/-- Store refuting C7: one quiz with a non-empty title. -/
def storeC7 : Store :=
  { categories := [], quizzes := [⟨1, "Old", some "D"⟩],
    questions := [], nextCategoryId := 1, nextQuestionId := 1 }

/-- C7 counterexample: supplying `title = ""` to `update_quiz` does not
    raise a `ValidationError` — the `if title:` truthiness guard skips
    the branch entirely, the call succeeds and the stored title is kept. -/
theorem C7_counterexample :
    update_quiz storeC7 1 { title := some "" }
      = (Except.ok ⟨1, "Old", some "D"⟩, storeC7) := by
  rfl

/-- C7 (amended): for an existing quiz, a supplied title that is
    non-empty but whitespace-only fails with the empty-title
    `ValidationError`, and a supplied title longer than 200 characters
    fails with the length `ValidationError`, in both cases leaving the
    store unchanged; but a supplied empty-string title is treated like an
    omitted one: with no other supplied field the call succeeds and keeps
    all prior values, exactly as when `title` is omitted. -/
theorem C7_update_quiz_title_validation (s : Store) (quizId : Nat)
    (q0 : Quiz) (d : QuizData)
    (hnd : (s.quizzes.map Quiz.id).Nodup)
    (hq : findQuiz s quizId = some q0) :
    (∀ t, d.title = some t → t ≠ "" → pyStrip t = "" →
        update_quiz s quizId d
          = (Except.error (Err.validationError (VEPayload.msg
              "Название квиза не может быть пустым")), s)) ∧
    (∀ t, d.title = some t → t ≠ "" → pyStrip t ≠ "" → 200 < t.length →
        update_quiz s quizId d
          = (Except.error (Err.validationError (VEPayload.msg
              "Название квиза не может превышать 200 символов")), s)) ∧
    (d.title = some "" → d.description = none →
        update_quiz s quizId d = (Except.ok q0, s)) ∧
    (d.title = none → d.description = none →
        update_quiz s quizId d = (Except.ok q0, s)) := by
  refine ⟨?_, ?_, ?_, ?_⟩
  · intro t ht hne htrim
    have hb : (t == "") = false := beq_eq_false_iff_ne.mpr hne
    simp [update_quiz, hq, ht, truthyStr, hb, htrim]
  · intro t ht hne htrim hlen
    have hb : (t == "") = false := beq_eq_false_iff_ne.mpr hne
    have hl0 : (pyStrip t).length ≠ 0 := by
      simpa using strLength_beq_zero_eq_false _ htrim
    simp [update_quiz, hq, ht, truthyStr, hb, hl0, hlen]
  · intro ht hd
    have hrq := replaceQuiz_of_find hnd hq
    simp [update_quiz, hq, ht, hd, truthyStr, hrq]
  · intro ht hd
    have hrq := replaceQuiz_of_find hnd hq
    simp [update_quiz, hq, ht, hd, truthyStr, hrq]

/-- C7 witness: on `storeC7`, a whitespace-only supplied title makes
    `update_quiz` fail with the empty-title `ValidationError` and leaves
    the store unchanged. -/
theorem C7_update_quiz_witness :
    update_quiz storeC7 1 { title := some "  " }
      = (Except.error (Err.validationError (VEPayload.msg
          "Название квиза не может быть пустым")), storeC7) := by
  exact (C7_update_quiz_title_validation storeC7 1 ⟨1, "Old", some "D"⟩
      { title := some "  " } (by decide) rfl).1 "  " rfl (by decide) rfl

/-
  C4.  Duplicate-title handling in `create_category`.
-/

/-- Store refuting C4: one category titled `"Science"`. -/
def storeC4 : Store :=
  { categories := [⟨1, "Science"⟩], quizzes := [], questions := [],
    nextCategoryId := 2, nextQuestionId := 1 }

/-- C4 counterexample: creating a duplicate `"Science"` category does
    not fail with a `ValidationError` — the `ValidationError` the source
    raises after `get_or_create` is caught by its own blanket
    `except Exception` and re-raised as a plain `Exception` wrapping the
    rendered message. -/
theorem C4_counterexample :
    isValidationError (create_category storeC4 "Science").1 = false ∧
    (create_category storeC4 "Science").1
      = Except.error (Err.exception
          ("Ошибка при создании категории: "
            ++ veStr ("Категория с названием \"Science\" уже существует"))) ∧
    (create_category storeC4 "Science").2 = storeC4 := by
  refine ⟨rfl, rfl, rfl⟩

/-- C4 (amended): for every store and every valid title (non-blank after
    trim, at most 100 characters), if a category with the trimmed title
    already exists, `create_category` fails — with a plain `Exception`
    wrapping the `ValidationError` whose message says the category
    already exists (`уже существует`) — and persists nothing; otherwise
    it persists and returns a new category carrying the trimmed title. -/
theorem C4_create_category_duplicate (s : Store) (title : String)
    (hne : title ≠ "") (htrim : pyStrip title ≠ "")
    (hlen : ¬ CATEGORY_TITLE_LENGTH < title.length) :
    ((s.categories.find? (fun c => c.title == pyStrip title)).isSome = true →
        create_category s title
          = (Except.error (Err.exception
              ("Ошибка при создании категории: "
                ++ veStr ("Категория с названием \"" ++ title ++ "\" уже существует"))), s)) ∧
    ((s.categories.find? (fun c => c.title == pyStrip title)) = none →
        create_category s title
          = (Except.ok ({ id := s.nextCategoryId, title := pyStrip title } : Category),
             { s with
                 categories := s.categories
                   ++ [{ id := s.nextCategoryId, title := pyStrip title }],
                 nextCategoryId := s.nextCategoryId + 1 })) := by
  have hb : (title == "") = false := beq_eq_false_iff_ne.mpr hne
  have hl0 : ((pyStrip title).length == 0) = false := strLength_beq_zero_eq_false _ htrim
  constructor
  · intro hdup
    obtain ⟨c, hc⟩ := Option.isSome_iff_exists.mp hdup
    simp only [create_category, hb, hl0, Bool.or_self, Bool.false_eq_true, if_false,
      if_neg hlen, hc]
  · intro hnone
    simp only [create_category, hb, hl0, Bool.or_self, Bool.false_eq_true, if_false,
      if_neg hlen, hnone]

/-- C4 witness: on `storeC4`, creating the duplicate `" Science "`
    (same trimmed title) fails with the wrapped already-exists error and
    leaves the store unchanged, while creating `"History"` persists a
    new category with that title. -/
theorem C4_create_category_witness :
    create_category storeC4 " Science "
      = (Except.error (Err.exception
          ("Ошибка при создании категории: "
            ++ veStr ("Категория с названием \" Science \" уже существует"))), storeC4) ∧
    create_category storeC4 "History"
      = (Except.ok ({ id := 2, title := "History" } : Category),
         { storeC4 with
             categories := storeC4.categories ++ [{ id := 2, title := "History" }],
             nextCategoryId := 3 }) := by
  constructor
  · exact (C4_create_category_duplicate storeC4 " Science " (by decide) (by decide)
      (by decide)).1 rfl
  · exact (C4_create_category_duplicate storeC4 "History" (by decide) (by decide)
      (by decide)).2 rfl

/-
  C10.  Falsy supplied values in `update_question` behave like omitted
  fields.
-/

/-- The text branch of `update_question` cannot tell a falsy supplied
    `text` from an omitted one. -/
theorem updText_defalsify (d : QuestionData) (q : Question) :
    updText (defalsify d) q = updText d q := by
  unfold updText defalsify
  cases hx : d.text with
  | none => rfl
  | some t =>
      by_cases ht : t = ""
      · subst ht; rfl
      · have hb : (t == "") = false := beq_eq_false_iff_ne.mpr ht
        simp [truthyStr, hb]

/-- Embeds `defalsify` does not touch `description`. -/
theorem updDescription_defalsify (d : QuestionData) (q : Question) :
    updDescription (defalsify d) q = updDescription d q := rfl

/-- The options branch cannot tell a falsy supplied `options` from an
    omitted one. -/
theorem updOptions_defalsify (d : QuestionData) (q : Question) :
    updOptions (defalsify d) q = updOptions d q := by
  unfold updOptions defalsify
  cases hx : d.options with
  | none => rfl
  | some l =>
      by_cases hl : l = []
      · subst hl; rfl
      · have hb : (l == []) = false := beq_eq_false_iff_ne.mpr hl
        simp [truthyList, hb]

/-- The correct-answer branch (which also reads the supplied `options`)
    cannot tell falsy supplied values from omitted ones. -/
theorem updCorrectAnswer_defalsify (d : QuestionData) (q : Question) :
    updCorrectAnswer (defalsify d) q = updCorrectAnswer d q := by
  unfold updCorrectAnswer defalsify
  cases hca : d.correct_answer with
  | none => rfl
  | some ca =>
      by_cases hc : ca = ""
      · subst hc; rfl
      · have hb : (ca == "") = false := beq_eq_false_iff_ne.mpr hc
        cases ho : d.options with
        | none => simp [truthyStr, truthyList, hb]
        | some opts =>
            by_cases hoe : opts = []
            · subst hoe; simp [truthyStr, truthyList, hb]
            · have hbo : (opts == []) = false := beq_eq_false_iff_ne.mpr hoe
              simp [truthyStr, truthyList, hb, hbo]

/-- The difficulty branch cannot tell a falsy supplied `difficulty` from
    an omitted one. -/
theorem updDifficulty_defalsify (d : QuestionData) (q : Question) :
    updDifficulty (defalsify d) q = updDifficulty d q := by
  unfold updDifficulty defalsify
  cases hx : d.difficulty with
  | none => rfl
  | some t =>
      by_cases ht : t = ""
      · subst ht; rfl
      · have hb : (t == "") = false := beq_eq_false_iff_ne.mpr ht
        simp [truthyStr, hb]

/-- Embeds `defalsify` does not touch `explanation`. -/
theorem updExplanation_defalsify (d : QuestionData) (q : Question) :
    updExplanation (defalsify d) q = updExplanation d q := rfl

/-- The chained field branches are insensitive to `defalsify`. -/
theorem applyQuestionUpdates_defalsify (d : QuestionData) (q : Question) :
    applyQuestionUpdates (defalsify d) q = applyQuestionUpdates d q := by
  unfold applyQuestionUpdates
  simp only [updText_defalsify, updDescription_defalsify, updOptions_defalsify,
    updCorrectAnswer_defalsify, updDifficulty_defalsify, updExplanation_defalsify]

/-- C10: `update_question` treats a falsy supplied value for a
    truthiness-guarded field (empty string for `text`, empty list for
    `options`, empty string for `correct_answer` or `difficulty`)
    exactly like omitting that field: the call is indistinguishable from
    the one with those fields removed, so the stored values are kept and
    no `ValidationError` is raised for those fields. -/
theorem C10_falsy_fields_like_omitted (s : Store) (questionId : Nat)
    (d : QuestionData) :
    update_question s questionId d = update_question s questionId (defalsify d) := by
  unfold update_question
  have hcat : ∀ q, updCategory s (defalsify d) q = updCategory s d q := fun _ => rfl
  simp only [hcat, applyQuestionUpdates_defalsify]

/-
  C1.  The central invariant: correct answer membership and options
  length, enforced by `Question.clean` on every create/update write.
-/

/-- A successful `create_question` returns exactly the question it
    appended to the store, and that question passed `Question.clean`. -/
theorem create_question_ok_elim {s : Store} {quizId : Nat}
    {d : QuestionData} {q : Question}
    (h : (create_question s quizId d).1 = Except.ok q) :
    Question.clean q = Except.ok () ∧
    (create_question s quizId d).2
      = { s with questions := s.questions ++ [q],
                 nextQuestionId := s.nextQuestionId + 1 } := by
  unfold create_question at h
  split at h
  next => simp at h
  next qz hqz =>
    split at h
    next hcid =>
      split at h
      next => simp at h
      next cat hcat =>
        split at h
        next e hb => simp at h
        next newQ hb =>
          split at h
          next e hcl => simp at h
          next u hcl =>
            simp only [Except.ok.injEq] at h
            subst h
            cases u
            refine ⟨hcl, ?_⟩
            simp only [create_question, hqz, hcid, if_true, hcat, hb, hcl]
    next hcid => simp at h

/-- A successful `update_question` returns exactly the question it wrote
    back, and that question passed `Question.clean`. -/
theorem update_question_ok_elim {s : Store} {questionId : Nat}
    {d : QuestionData} {q : Question}
    (h : (update_question s questionId d).1 = Except.ok q) :
    Question.clean q = Except.ok () ∧
    (update_question s questionId d).2 = replaceQuestion s q := by
  unfold update_question at h
  split at h
  next => simp at h
  next q0 hq0 =>
    split at h
    next e hc => simp at h
    next q1 hc =>
      split at h
      next e ha => simp at h
      next q2 ha =>
        split at h
        next e hcl => simp at h
        next u hcl =>
          simp only [Except.ok.injEq] at h
          subst h
          cases u
          refine ⟨hcl, ?_⟩
          simp only [update_question, hq0, hc, ha, hcl]

/-- C1: every question a successful `create_question` or
    `update_question` persists (the operation returns exactly the row it
    wrote) satisfies the invariant: its stored `correct_answer` is an
    element of its stored `options` and the stored `options` has at
    least 2 entries — both writes run `Question.clean` first.  And when
    `create_question` reaches the membership check with a
    `correct_answer` not in the supplied `options` (existing quiz,
    resolvable category, valid text, no description, non-empty answer),
    it fails with the membership `ValidationError` and the store — in
    particular its question table — is unchanged. -/
theorem C1_question_invariant :
    (∀ (s : Store) (quizId : Nat) (d : QuestionData) (q : Question),
        (create_question s quizId d).1 = Except.ok q →
          q.correctAnswer ∈ q.options ∧ 2 ≤ q.options.length ∧
          (create_question s quizId d).2.questions = s.questions ++ [q]) ∧
    (∀ (s : Store) (questionId : Nat) (d : QuestionData) (q : Question),
        (update_question s questionId d).1 = Except.ok q →
          q.correctAnswer ∈ q.options ∧ 2 ≤ q.options.length ∧
          (update_question s questionId d).2 = replaceQuestion s q) ∧
    (∀ (s : Store) (quizId : Nat) (d : QuestionData) (t ca : String)
        (opts : List String),
        (findQuiz s quizId).isSome = true →
        truthyNat d.category_id = true →
        (findCategory s (d.category_id.getD 0)).isSome = true →
        d.text = some t → pyStrip t ≠ "" → ¬ DESCRIPTION_LENGTH < t.length →
        d.description = none →
        d.correct_answer = some ca → ca ≠ "" →
        d.options = some opts → opts.contains ca = false →
        create_question s quizId d
          = (Except.error (Err.validationError (VEPayload.msg
              "Правильный ответ должен быть одним из вариантов ответа")), s)) := by
  refine ⟨?_, ?_, ?_⟩
  · intro s quizId d q h
    obtain ⟨hcl, hs⟩ := create_question_ok_elim h
    obtain ⟨hmem, hlen⟩ := clean_ok_inv hcl
    exact ⟨hmem, hlen, by rw [hs]⟩
  · intro s questionId d q h
    obtain ⟨hcl, hs⟩ := update_question_ok_elim h
    obtain ⟨hmem, hlen⟩ := clean_ok_inv hcl
    exact ⟨hmem, hlen, hs⟩
  · intro s quizId d t ca opts hquiz hcid hcat ht htrim htlen hd hca hcane hopts hmem
    obtain ⟨qz, hqz⟩ := Option.isSome_iff_exists.mp hquiz
    obtain ⟨cat, hc⟩ := Option.isSome_iff_exists.mp hcat
    have hbne : (t == "") = false := by
      rw [beq_eq_false_iff_ne]
      intro h0
      exact htrim (by rw [h0]; rfl)
    have hl0 : (pyStrip t).length ≠ 0 := by
      simpa using strLength_beq_zero_eq_false _ htrim
    have hcb : (ca == "") = false := beq_eq_false_iff_ne.mpr hcane
    have hnotmem : ca ∉ opts := by simpa using hmem
    simp [create_question, buildNewQuestion, hqz, hcid, hc, ht, hd, hca, hopts,
      truthyStr, hbne, hl0, htlen, hcb, hnotmem]

/-- C1 witness: on `storeA`, creating a question whose `correct_answer`
    `"C"` is not among options `["A", "B"]` fails with the membership
    `ValidationError` and leaves the store unchanged; and a successful
    update keeps the invariant. -/
theorem C1_question_invariant_witness :
    create_question storeA 1
        { category_id := some 1, text := some "T", options := some ["A", "B"],
          correct_answer := some "C", difficulty := some "easy" }
      = (Except.error (Err.validationError (VEPayload.msg
          "Правильный ответ должен быть одним из вариантов ответа")), storeA) ∧
    ((update_question storeA 1 { options := some ["X", "Y"], correct_answer := some "Y" }).1
        = Except.ok ⟨1, 1, 1, "Q1", none, ["X", "Y"], "Y", none, "easy"⟩ ∧
      ("Y" : String) ∈ (["X", "Y"] : List String) ∧ 2 ≤ (["X", "Y"] : List String).length) := by
  refine ⟨?_, ?_, ?_, ?_⟩
  · exact C1_question_invariant.2.2 storeA 1
      { category_id := some 1, text := some "T", options := some ["A", "B"],
        correct_answer := some "C", difficulty := some "easy" }
      "T" "C" ["A", "B"] rfl rfl rfl rfl (by decide) (by decide) rfl rfl
      (by decide) rfl (by decide)
  · rfl
  · have h := C1_question_invariant.2.1 storeA 1
      { options := some ["X", "Y"], correct_answer := some "Y" }
      ⟨1, 1, 1, "Q1", none, ["X", "Y"], "Y", none, "easy"⟩ rfl
    exact h.1
  · have h := C1_question_invariant.2.1 storeA 1
      { options := some ["X", "Y"], correct_answer := some "Y" }
      ⟨1, 1, 1, "Q1", none, ["X", "Y"], "Y", none, "easy"⟩ rfl
    exact h.2.1

/-
  C6.  Omitted difficulty on create.
-/

/-- C6: evaluating `create_question` at the claim's input — difficulty
    omitted from the data, all other fields valid, quiz and category
    existing — the call fails with the difficulty `ValidationError`
    instead of creating a question with the default `medium`: the
    service's check `difficulty not in [d[0] for d in Difficulty.choices]`
    rejects `None`, although the model field declares
    `default=Difficulty.MEDIUM`.  No question is persisted. -/
theorem C6_difficulty_omitted_rejected :
    create_question storeA 1
        { category_id := some 1, text := some "T", options := some ["A", "B"],
          correct_answer := some "A" }
      = (Except.error (Err.validationError (VEPayload.msg
          ("Сложность должна быть одной из: " ++ difficultyChoicesRepr))), storeA) := by
  rfl

/-
  C3.  `random_question_from_quiz`: error cases and uniform selection.
-/

/-- For an existing quiz and an in-range index, the random pick returns
    exactly the index-th question of the id-ordered queryset. -/
theorem random_question_eq_get (s : Store) (quizId : Nat) (i : Nat)
    (hq : (findQuiz s quizId).isSome = true)
    (hi : i < (quizQuestionsSorted s quizId).length) :
    random_question_from_quiz s quizId i
      = Except.ok ((quizQuestionsSorted s quizId).get ⟨i, hi⟩) := by
  obtain ⟨qz, hqz⟩ := Option.isSome_iff_exists.mp hq
  have hne : (quizQuestionsSorted s quizId).isEmpty = false := by
    cases hl : quizQuestionsSorted s quizId with
    | nil => rw [hl] at hi; simp at hi
    | cons a t => rfl
  simp only [random_question_from_quiz, hqz, hne, Bool.false_eq_true, if_false,
    List.getElem?_eq_getElem hi]
  simp [List.get_eq_getElem]

/-- C3: the random pick fails with the quiz-not-found error when the
    quiz does not exist (whatever index is drawn); fails with the
    (re-wrapped) no-questions error when the quiz exists but has no
    questions; and for a quiz with questions, under unique question ids,
    every question of the quiz is returned for exactly one drawn index
    in `[0, count)` — so `random.randint(0, count - 1)` being uniform
    makes the returned question uniform over the whole set. -/
theorem C3_random_question (s : Store) (quizId : Nat) :
    (findQuiz s quizId = none →
        ∀ i, random_question_from_quiz s quizId i
          = Except.error (Err.exception
              ("Квиз c id=" ++ toString quizId ++ " не найден"))) ∧
    ((findQuiz s quizId).isSome = true →
        s.questions.filter (fun q => q.quizId == quizId) = [] →
        ∀ i, random_question_from_quiz s quizId i
          = Except.error (Err.exception
              ("Ошибка при получении случайного вопроса: B квизе c id="
                ++ toString quizId ++ " нет вопросов"))) ∧
    ((findQuiz s quizId).isSome = true →
        (s.questions.map Question.id).Nodup →
        ∀ q ∈ quizQuestionsSorted s quizId,
          ((Finset.range (quizQuestionsSorted s quizId).length).filter
              (fun i => random_question_from_quiz s quizId i = Except.ok q)).card
            = 1) := by
  refine ⟨?_, ?_, ?_⟩
  · intro hq i
    simp [random_question_from_quiz, hq]
  · intro hq hempty i
    obtain ⟨qz, hqz⟩ := Option.isSome_iff_exists.mp hq
    have h1 : quizQuestionsSorted s quizId = [] := by
      unfold quizQuestionsSorted sortQuestionsById
      rw [hempty]
      rfl
    simp [random_question_from_quiz, hqz, h1]
  · intro hq hnodup q hqmem
    have hnd : (quizQuestionsSorted s quizId).Nodup := by
      have h1 : s.questions.Nodup := List.Nodup.of_map _ hnodup
      have h2 : (s.questions.filter (fun q2 => q2.quizId == quizId)).Nodup :=
        List.Nodup.filter _ h1
      exact ((List.perm_insertionSort _ _).nodup_iff).mpr h2
    obtain ⟨n0, hq0⟩ := List.mem_iff_get.mp hqmem
    obtain ⟨i0, hi0⟩ := n0
    rw [Finset.card_eq_one]
    refine ⟨i0, ?_⟩
    ext j
    simp only [Finset.mem_filter, Finset.mem_range, Finset.mem_singleton]
    constructor
    · rintro ⟨hj, hjq⟩
      rw [random_question_eq_get s quizId j hq hj] at hjq
      have hget : (quizQuestionsSorted s quizId).get ⟨j, hj⟩
          = (quizQuestionsSorted s quizId).get ⟨i0, hi0⟩ := by
        rw [hq0]
        exact Except.ok.inj hjq
      exact congrArg Fin.val ((List.Nodup.get_inj_iff hnd).mp hget)
    · intro hj
      rw [hj]
      refine ⟨hi0, ?_⟩
      rw [random_question_eq_get s quizId i0 hq hi0, hq0]

/-- C3 witness: on `storeA` (quiz 1 has exactly the questions with ids
    1 and 2), question 1 is returned for exactly one drawn index in
    `[0, 2)`. -/
theorem C3_random_question_witness :
    ((Finset.range (quizQuestionsSorted storeA 1).length).filter
        (fun i => random_question_from_quiz storeA 1 i
          = Except.ok ⟨1, 1, 1, "Q1", none, ["A", "B"], "A", none, "easy"⟩)).card
      = 1 := by
  exact (C3_random_question storeA 1).2.2 rfl (by decide)
    ⟨1, 1, 1, "Q1", none, ["A", "B"], "A", none, "easy"⟩ (by decide)

end QuizApp
